import Mathlib

/-!
Verification of the Zygosity VCF-filtering tool (`filteration.py`, `zygosity.py`).

The variant table is modelled as a schema of sample-column names plus a list of
rows; each row carries the eight fixed VCF columns as strings (the loader reads
everything as text) together with the sample cells.  Pandas operations are
embedded as follows:

* `Series.str.extract(r'KEY=(cls+)')` is `reSearch`: scan for the first
  occurrence of the literal key that is followed by at least one character of
  the class, and return the maximal run (regex search with backtracking to the
  next start position, as `re.search` does).
* `.astype(float)` on an extracted column either yields `none` for a row with
  no match (NaN) or fails for the whole column when a matched token is not a
  valid float literal; `.astype(int)` fails for the whole column as soon as any
  row has no match (NaN cannot be cast to int).  Failure is an `Except.error`,
  mirroring the Python exception escaping the filter.
* `df[mask]` is `keepByMask`; comparisons against NaN are false.
* Python truthiness (`if not dp_threshold`, `if af:`, `if chromosome:`) is
  modelled explicitly: `None`/`0.0` are falsy for floats, `None`/`""` for
  strings.
-/

namespace Zygosity

/-- Digits of a decimal numeral to a natural number (value of `\d+`). -/
def digitsToNat (cs : List Char) : Nat :=
  cs.foldl (fun a c => 10 * a + (c.toNat - 48)) 0

/-- `k` is a leading run of `s` (Python `str.startswith` on char lists). -/
def listPre : List Char → List Char → Bool
  | [], _ => true
  | _ :: _, [] => false
  | k :: ks, c :: cs => k = c && listPre ks cs

/-- Drop the key `k` from the front of `s`, or `none` when `s` does not start
with `k`. -/
def dropKey : List Char → List Char → Option (List Char)
  | [], s => some s
  | _ :: _, [] => none
  | k :: ks, c :: cs => if k = c then dropKey ks cs else none

/-- Substring containment (Python `pat in s`). -/
def isSubstr (p : List Char) : List Char → Bool
  | [] => listPre p []
  | c :: cs => listPre p (c :: cs) || isSubstr p (cs)

/-- `re.search(key + '(cls+)', s)`: find the first position where the literal
`key` is followed by at least one character of class `cls` and capture the
maximal run; otherwise keep scanning from the next position. -/
def reSearch (key : List Char) (cls : Char → Bool) : List Char → Option (List Char)
  | [] => none
  | c :: cs =>
    match dropKey key (c :: cs) with
    | some rest =>
      let tok := rest.takeWhile cls
      if tok.isEmpty then reSearch key cls cs else some tok
    | none => reSearch key cls cs

/-- Python whitespace test used by `str.strip`. -/
def isWs (c : Char) : Bool :=
  c = ' ' || c = '\t' || c = '\n' || c = '\r' || c = '\x0b' || c = '\x0c'

/-- Python `str.strip()` on char lists. -/
def trimChars (cs : List Char) : List Char :=
  ((cs.dropWhile isWs).reverse.dropWhile isWs).reverse

/-- Python `s.split(sep)` for a one-character separator. -/
def splitChar (sep : Char) : List Char → List (List Char)
  | [] => [[]]
  | c :: cs =>
    let r := splitChar sep cs
    if c = sep then [] :: r
    else
      match r with
      | [] => [[c]]
      | f :: rest => (c :: f) :: rest

/-- Python `int(s)`: strip whitespace, optional sign, then a nonempty digit
run; anything else raises `ValueError`, modelled as `none`.  Also the model of
`Series.astype(int)` applied to a decimal string. -/
def pyInt (s : String) : Option Int :=
  match trimChars s.toList with
  | '+' :: rest =>
    if rest ≠ [] ∧ rest.all Char.isDigit then some (digitsToNat rest : Int) else none
  | '-' :: rest =>
    if rest ≠ [] ∧ rest.all Char.isDigit then some (-(digitsToNat rest : Int)) else none
  | cs =>
    if cs ≠ [] ∧ cs.all Char.isDigit then some (digitsToNat cs : Int) else none

/-- `float(tok)` for a token drawn from the class `[\d.]+`: valid when it has
at most one dot and at least one digit (Python accepts `"5."` and `".5"` but
rejects `"."` and `"1.2.3"`). -/
def pyFloatTok (cs : List Char) : Option ℚ :=
  if cs.count '.' = 0 then
    if cs = [] then none else some (digitsToNat cs : ℚ)
  else if cs.count '.' = 1 then
    let ip := cs.takeWhile (fun c => c ≠ '.')
    let fp := (cs.dropWhile (fun c => c ≠ '.')).tail
    if ip = [] ∧ fp = [] then none
    else some ((digitsToNat ip : ℚ) + (digitsToNat fp : ℚ) / ((10 : ℚ) ^ fp.length))
  else none

/-- A Python value as it reaches a filter parameter: either an int (the dtype
of an extracted column) or a str (what argparse delivers). -/
inductive PyVal where
  | pint : Int → PyVal
  | pstr : String → PyVal
deriving DecidableEq, Repr

/-- Pandas comparison of an int-dtype element against a scalar: equality holds
only against another int; an int is never equal to a str (elementwise `False`,
no exception). -/
def pyEqInt (n : Int) : PyVal → Bool
  | .pint m => decide (n = m)
  | .pstr _ => false

/-- One VCF row after loading: the eight fixed columns (all read as text) and
the sample cells, aligned with `Table.sampleCols`. -/
structure Row where
  chrom : String
  pos : String
  id : String
  ref : String
  alt : String
  qual : String
  filter : String
  info : String
  samples : List String
deriving DecidableEq, Repr

/-- The loaded variant table: sample-column names plus the rows. -/
structure Table where
  sampleCols : List String
  rows : List Row
deriving DecidableEq, Repr

/-- `df[mask]`: keep the elements of `l` whose mask entry is `true`. -/
def keepByMask {α : Type} : List α → List Bool → List α
  | [], _ => []
  | _ :: _, [] => []
  | x :: xs, b :: bs => if b then x :: keepByMask xs bs else keepByMask xs bs

/-- Character class of the AF capture group `[\d.]`. -/
def afClass (c : Char) : Bool := c.isDigit || c = '.'

/-- `df.INFO.str.extract(r'AF=([\d.]+)')` for one row. -/
def extractAF (info : String) : Option (List Char) :=
  reSearch "AF=".toList afClass info.toList

/-- `df.INFO.str.extract(r'DP=(\d+)')` for one row. -/
def extractDP (info : String) : Option (List Char) :=
  reSearch "DP=".toList Char.isDigit info.toList

/-- `df['#CHROM'].str.extract(r'chr(\d+)')` for one row. -/
def extractChr (chrom : String) : Option (List Char) :=
  reSearch "chr".toList Char.isDigit chrom.toList

/-- The DP value of a row after `.astype(float)`: `none` is NaN (no match); a
`\d+` token always converts. -/
def rowDP (r : Row) : Option ℚ :=
  (extractDP r.info).map (fun ds => (digitsToNat ds : ℚ))

/-- The AF value of a row when its token (if any) converts cleanly. -/
def rowAFval (r : Row) : Option ℚ :=
  match extractAF r.info with
  | none => none
  | some tok => pyFloatTok tok

/-- Whether `.astype(float)` succeeds on this row's AF extraction (a row with
no match is NaN, which converts fine). -/
def afOk (r : Row) : Bool :=
  match extractAF r.info with
  | none => true
  | some tok => (pyFloatTok tok).isSome

/-- `series > t` elementwise, with NaN comparing false. -/
def optGTmask (t : ℚ) (v : Option ℚ) : Bool :=
  match v with
  | some q => decide (q > t)
  | none => false

/-- `df.INFO.str.extract(r'AF=([\d.]+)', expand=False).astype(float)`: the
whole column conversion raises `ValueError` as soon as one matched token is
not a float literal. -/
def seriesAF : List Row → Except String (List (Option ℚ))
  | [] => .ok []
  | r :: rs =>
    match extractAF r.info with
    | none =>
      match seriesAF rs with
      | .ok vs => .ok (none :: vs)
      | .error e => .error e
    | some tok =>
      match pyFloatTok tok with
      | none => .error "ValueError: could not convert string to float"
      | some q =>
        match seriesAF rs with
        | .ok vs => .ok (some q :: vs)
        | .error e => .error e

/-- `filter_af` (filteration.py): out-of-range threshold returns the input
unchanged; otherwise keep rows whose extracted AF exceeds the threshold. -/
def filter_af (df : Table) (af_threshold : ℚ) : Except String Table :=
  if 0 ≤ af_threshold ∧ af_threshold ≤ 1 then
    match seriesAF df.rows with
    | .error e => .error e
    | .ok vals => .ok { df with rows := keepByMask df.rows (vals.map (optGTmask af_threshold)) }
  else .ok df

/-- The effective depth threshold of `filter_dp`: `not dp_threshold` (Python
falsiness: `None` or `0.0`) and a negative value both fall back to 10. -/
def effDP (dp_threshold : Option ℚ) : ℚ :=
  match dp_threshold with
  | none => 10
  | some x => if x = 0 then 10 else if x < 0 then 10 else x

/-- Row predicate of the depth filter: extracted DP strictly above the
effective threshold (NaN rows drop out). -/
def dpKeep (dp_threshold : Option ℚ) (r : Row) : Bool :=
  optGTmask (effDP dp_threshold) (rowDP r)

/-- `filter_dp` (filteration.py).  The `\d+` extraction converts to float
without failure, so the filter is total. -/
def filter_dp (df : Table) (dp_threshold : Option ℚ) : Table :=
  { df with rows := df.rows.filter (dpKeep dp_threshold) }

/-- `df['#CHROM'].str.extract(r'chr(\d+)', expand=False).astype(int)`: the
cast raises as soon as any row has no match (NaN to int). -/
def seriesChr : List Row → Except String (List Int)
  | [] => .ok []
  | r :: rs =>
    match extractChr r.chrom with
    | none => .error "ValueError: Cannot convert non-finite values (NA or inf) to integer"
    | some ds =>
      match seriesChr rs with
      | .ok vs => .ok ((digitsToNat ds : Int) :: vs)
      | .error e => .error e

/-- `filter_chr` (filteration.py): keep rows whose extracted chromosome number
equals the selected value (pandas elementwise `==`). -/
def filter_chr (df : Table) (selected_chr : PyVal) : Except String Table :=
  match seriesChr df.rows with
  | .error e => .error e
  | .ok vals => .ok { df with rows := keepByMask df.rows (vals.map (fun n => pyEqInt n selected_chr)) }

/-- The list comprehension `[int(val.strip()) for val in rng.split('-')]`:
`none` models the `ValueError` raised by the first bad token. -/
def parseToks : List (List Char) → Option (List Int)
  | [] => some []
  | v :: vs =>
    match pyInt ⟨trimChars v⟩ with
    | none => none
    | some n =>
      match parseToks vs with
      | none => none
      | some ns => some (n :: ns)

/-- Tokenisation of the position-range argument. -/
def parseRangeTokens (rng : String) : Option (List Int) :=
  parseToks (splitChar '-' rng.toList)

/-- `df.POS.astype(int)`: fails (ValueError) on the first non-integer POS. -/
def seriesPos : List Row → Option (List Int)
  | [] => some []
  | r :: rs =>
    match pyInt r.pos with
    | none => none
    | some p =>
      match seriesPos rs with
      | none => none
      | some ps => some (p :: ps)

/-- `filter_position` (filteration.py): every `ValueError` — a bad range token
or a non-integer POS — is caught and returns the input unchanged; so does a
split with other than two parts.  With two integer bounds, keep rows with
`start < POS < end`. -/
def filter_position (df : Table) (selected_pos_range : String) : Table :=
  match parseRangeTokens selected_pos_range with
  | none => df
  | some toks =>
    match toks with
    | [a, b] =>
      match seriesPos df.rows with
      | none => df
      | some ps => { df with rows := keepByMask df.rows (ps.map (fun p => decide (a < p ∧ p < b))) }
    | _ => df

/-- `include_filter` (filteration.py): keep rows whose FILTER equals the
selected value (the membership check only prints a notice). -/
def include_filter (df : Table) (selected_val : String) : Table :=
  { df with rows := df.rows.filter (fun r => decide (r.filter = selected_val)) }

/-- `exclude_filter` (filteration.py): keep rows whose FILTER differs from the
selected value. -/
def exclude_filter (df : Table) (selected_val : String) : Table :=
  { df with rows := df.rows.filter (fun r => decide (r.filter ≠ selected_val)) }

/-- First colon-separated field of a genotype cell (`x.split(':')[0]`). -/
def firstFieldChars : List Char → List Char
  | [] => []
  | c :: cs => if c = ':' then [] else c :: firstFieldChars cs

/-- `'pat' in x.split(':')[0]` — the classification test of `calc_zygosity`
(substring containment, as Python `in`). -/
def gtHas (pat : String) (cell : String) : Bool :=
  isSubstr pat.toList (firstFieldChars cell.toList)

/-- `df[cols].applymap(lambda x: pat in x.split(':')[0]).sum().sum()` over one
flat list of cells. -/
def countPat (cells : List String) (pat : String) : Nat :=
  (cells.map (fun c => if gtHas pat c then 1 else 0)).sum

/-- Indices of the columns whose name starts with `'SAMPLE'`. -/
def sampleColIdxs (df : Table) : List Nat :=
  (List.range df.sampleCols.length).filter
    (fun i => listPre "SAMPLE".toList (df.sampleCols.getD i "").toList)

/-- All cells of the `SAMPLE`-prefixed columns, column-major as the double
`.sum()` visits them. -/
def allSampleCells (df : Table) : List String :=
  (sampleColIdxs df).foldr (fun i acc => df.rows.map (fun r => r.samples.getD i "") ++ acc) []

/-- Position of a column name in the schema (`df[[name]]` lookup). -/
def findColIdx (s : String) : List String → Option Nat
  | [] => none
  | c :: cs => if c = s then some 0 else (findColIdx s cs).map (· + 1)

/-- The cells `calc_zygosity` classifies: with a sample name, the single
column of that name (`df[[sample_name]]`, `KeyError` when absent — dropping
the other SAMPLE columns first does not change the selected one); without,
every `SAMPLE`-prefixed column. -/
def sampleCells (df : Table) : Option String → Except String (List String)
  | some s =>
    match findColIdx s df.sampleCols with
    | some i => .ok (df.rows.map (fun r => r.samples.getD i ""))
    | none => .error "KeyError"
  | none => .ok (allSampleCells df)

/-- The zygosity breakdown of `calc_zygosity` (zygosity.py): the `variants`
dict in insertion order, counting each pattern over the selected cells. -/
def calc_zygosity (df : Table) (sample_name : Option String) :
    Except String (List (String × Nat)) :=
  match sampleCells df sample_name with
  | .error e => .error e
  | .ok cells =>
    .ok [("g 1/1", countPat cells "1/1"), ("g 1/0", countPat cells "1/0"),
         ("g 0/1", countPat cells "0/1"), ("g 0/0", countPat cells "0/0")]

/-- The filter chain of `process_vcf_file` (zygosity.py), from the loaded
table to the table handed to `calc_zygosity`.  File loading and output
writing are external I/O and stay outside the model.  `if af:` skips on
`None` and on `0.0`; the string parameters skip on `None` and on `""`. -/
def process_vcf_file (df : Table) (depth af : Option ℚ)
    (chromosome position_range incf excf : Option String) : Except String Table :=
  let df1 := filter_dp df depth
  let rAf : Except String Table :=
    match af with
    | some a => if a = 0 then .ok df1 else filter_af df1 a
    | none => .ok df1
  match rAf with
  | .error e => .error e
  | .ok df2 =>
    let rChr : Except String Table :=
      match chromosome with
      | some c => if c = "" then .ok df2 else filter_chr df2 (PyVal.pstr c)
      | none => .ok df2
    match rChr with
    | .error e => .error e
    | .ok df3 =>
      let df4 :=
        match position_range with
        | some p => if p = "" then df3 else filter_position df3 p
        | none => df3
      let df5 :=
        match incf with
        | some v => if v = "" then df4 else include_filter df4 v
        | none => df4
      let df6 :=
        match excf with
        | some v => if v = "" then df5 else exclude_filter df5 v
        | none => df5
      .ok df6

/-- The chromosome number of a row whose CHROM matches `chr<int>` (value of
the cast column; the default is irrelevant under a full-match hypothesis). -/
def chrVal (r : Row) : Int :=
  match extractChr r.chrom with
  | some ds => (digitsToNat ds : Int)
  | none => 0

/-- The POS of a row that parses as an integer (default irrelevant under an
all-parse hypothesis). -/
def posVal (r : Row) : Int :=
  (pyInt r.pos).getD 0

/-- A row with the fixed columns filled with routine values. -/
def mkRow (chrom pos filt info : String) (samples : List String) : Row :=
  { chrom := chrom, pos := pos, id := "v1", ref := "A", alt := "T", qual := "50",
    filter := filt, info := info, samples := samples }

/-- One sample cell whose GT field is the non-canonical string `0/0/1`. -/
def gtRow : Row := mkRow "chr1" "100" "PASS" "DP=20" ["0/0/1:30"]

/-- A one-row table exercising the genotype classification. -/
def gtTable : Table := { sampleCols := ["SAMPLE1"], rows := [gtRow] }

/-- A row whose CHROM does not match `chr<int>`. -/
def chrXRow : Row := mkRow "chrX" "100" "PASS" "XY" ["0/1"]

/-- A one-row table whose CHROM extraction fails. -/
def chrXTable : Table := { sampleCols := ["SAMPLE1"], rows := [chrXRow] }

/-- A row with depth 5. -/
def dp5Row : Row := mkRow "chr1" "100" "PASS" "DP=5" ["0/1"]

/-- A one-row table with depth 5. -/
def dp5Table : Table := { sampleCols := ["SAMPLE1"], rows := [dp5Row] }

/-- A row with an integral AF annotation. -/
def afRow1 : Row := mkRow "chr1" "100" "PASS" "DP=20;AF=1" ["0/1"]

/-- A row with no AF annotation. -/
def afRow0 : Row := mkRow "chr1" "200" "PASS" "DP=20" ["1/1"]

/-- A two-row table for the allele-frequency filter. -/
def afTable : Table := { sampleCols := ["SAMPLE1"], rows := [afRow1, afRow0] }

/-- A table with positions 100, 1000, 2500, 5000. -/
def posTable : Table :=
  { sampleCols := ["SAMPLE1"],
    rows := [mkRow "chr1" "100" "PASS" "DP=20" ["0/1"],
             mkRow "chr1" "1000" "PASS" "DP=20" ["0/1"],
             mkRow "chr1" "2500" "PASS" "DP=20" ["0/1"],
             mkRow "chr1" "5000" "PASS" "DP=20" ["0/1"]] }

/-- A table whose CHROM values all match `chr<int>`. -/
def chrTable : Table :=
  { sampleCols := ["SAMPLE1"],
    rows := [mkRow "chr1" "100" "PASS" "DP=20" ["0/1"],
             mkRow "chr2" "200" "PASS" "DP=20" ["1/1"]] }

/-- A table with a sample column and no rows. -/
def emptyTable : Table := { sampleCols := ["SAMPLE1"], rows := [] }

/- ------------------------------------------------------------------ -/
/- Helper lemmas.                                                      -/
/- ------------------------------------------------------------------ -/

theorem keepByMask_map {α : Type} (l : List α) (f : α → Bool) :
    keepByMask l (l.map f) = l.filter f := by
  induction l with
  | nil => rfl
  | cons x xs ih =>
    cases hf : f x <;> simp [keepByMask, List.filter_cons, hf, ih]

theorem keepByMask_sublist {α : Type} (l : List α) :
    ∀ m : List Bool, (keepByMask l m).Sublist l := by
  induction l with
  | nil => intro m; cases m <;> exact List.Sublist.refl []
  | cons x xs ih =>
    intro m
    cases m with
    | nil => exact List.nil_sublist _
    | cons b bs =>
      cases b with
      | false => simpa [keepByMask] using (ih bs).cons x
      | true => simpa [keepByMask] using (ih bs).cons₂ x

theorem keepByMask_mapFalse {α β : Type} (l : List α) (v : List β) :
    keepByMask l (v.map (fun _ => false)) = [] := by
  induction l generalizing v with
  | nil => rfl
  | cons x xs ih =>
    cases v with
    | nil => rfl
    | cons b bs => simpa [keepByMask] using ih bs

theorem seriesAF_ok (rows : List Row) (h : ∀ r ∈ rows, afOk r = true) :
    seriesAF rows = .ok (rows.map rowAFval) := by
  induction rows with
  | nil => rfl
  | cons r rs ih =>
    have hr : afOk r = true := h r (by simp)
    have ihh := ih (fun x hx => h x (by simp [hx]))
    unfold afOk at hr
    cases hx : extractAF r.info with
    | none => simp [seriesAF, hx, ihh, rowAFval]
    | some tok =>
      rw [hx] at hr
      have hr2 : (pyFloatTok tok).isSome = true := hr
      cases hf : pyFloatTok tok with
      | none => rw [hf] at hr2; simp at hr2
      | some q => simp [seriesAF, hx, hf, ihh, rowAFval]

theorem seriesChr_ok (rows : List Row) (h : ∀ r ∈ rows, (extractChr r.chrom).isSome = true) :
    seriesChr rows = .ok (rows.map chrVal) := by
  induction rows with
  | nil => rfl
  | cons r rs ih =>
    have hr : (extractChr r.chrom).isSome = true := h r (by simp)
    have ihh := ih (fun x hx => h x (by simp [hx]))
    cases hx : extractChr r.chrom with
    | none => rw [hx] at hr; simp at hr
    | some ds => simp [seriesChr, hx, ihh, chrVal]

theorem seriesChr_error (rows : List Row) (r : Row) (hm : r ∈ rows)
    (hx : extractChr r.chrom = none) : ∃ e, seriesChr rows = .error e := by
  induction rows with
  | nil => cases hm
  | cons x xs ih =>
    rcases List.mem_cons.mp hm with h1 | h2
    · subst h1
      exact ⟨"ValueError: Cannot convert non-finite values (NA or inf) to integer",
        by simp [seriesChr, hx]⟩
    · cases hy : extractChr x.chrom with
      | none =>
        exact ⟨"ValueError: Cannot convert non-finite values (NA or inf) to integer",
          by simp [seriesChr, hy]⟩
      | some ds =>
        obtain ⟨e, he⟩ := ih h2
        exact ⟨e, by simp [seriesChr, hy, he]⟩

theorem seriesPos_ok (rows : List Row) (h : ∀ r ∈ rows, (pyInt r.pos).isSome = true) :
    seriesPos rows = some (rows.map posVal) := by
  induction rows with
  | nil => rfl
  | cons r rs ih =>
    have hr : (pyInt r.pos).isSome = true := h r (by simp)
    have ihh := ih (fun x hx => h x (by simp [hx]))
    cases hx : pyInt r.pos with
    | none => rw [hx] at hr; simp at hr
    | some p => simp [seriesPos, hx, ihh, posVal]

theorem countPat_eq_length (cells : List String) (pat : String) :
    countPat cells pat = (cells.filter (gtHas pat)).length := by
  induction cells with
  | nil => rfl
  | cons c cs ih =>
    have ih2 : (List.map (fun x => if gtHas pat x = true then 1 else 0) cs).sum
        = (List.filter (gtHas pat) cs).length := by simpa [countPat] using ih
    cases hc : gtHas pat c
    · simp [countPat, List.filter_cons, hc, ih2]
    · simp [countPat, List.filter_cons, hc, ih2]
      omega

theorem dpKeep_eq (t : Option ℚ) :
    dpKeep t = fun r => optGTmask (effDP t) (rowDP r) := rfl

theorem allSampleCells_nilRows (df : Table) (h : df.rows = []) :
    allSampleCells df = [] := by
  unfold allSampleCells
  rw [h]
  induction sampleColIdxs df with
  | nil => rfl
  | cons i is ih => simp

/- ------------------------------------------------------------------ -/
/- Claim theorems.                                                     -/
/- ------------------------------------------------------------------ -/

/-- C1 (counterexample): the genotype cell `"0/0/1:30"` has first colon-field
`"0/0/1"`, which is literally equal to none of the four canonical strings, yet
`calc_zygosity` counts it under both `0/0` and `0/1` — the code tests substring
containment (`'0/1' in x.split(':')[0]`), not literal equality. -/
theorem c1_counterexample :
    calc_zygosity gtTable none =
      .ok [("g 1/1", 0), ("g 1/0", 0), ("g 0/1", 1), ("g 0/0", 1)] ∧
    String.mk (firstFieldChars "0/0/1:30".toList) = "0/0/1" ∧
    "0/0/1" ≠ "0/0" ∧ "0/0/1" ≠ "0/1" ∧ "0/0/1" ≠ "1/0" ∧ "0/0/1" ≠ "1/1" :=
  ⟨rfl, rfl, by decide⟩

/-- C1 (amended): the zygosity class counted is determined by splitting the
cell on `:`, taking the first field, and testing whether each of the four
canonical strings occurs as a SUBSTRING of that field; a cell contributes to
every count whose pattern it contains (possibly several), and a first field
containing none of the four patterns contributes to no count. -/
theorem c1_substring_classification (df : Table) :
    calc_zygosity df none = .ok
      [("g 1/1", ((allSampleCells df).filter (gtHas "1/1")).length),
       ("g 1/0", ((allSampleCells df).filter (gtHas "1/0")).length),
       ("g 0/1", ((allSampleCells df).filter (gtHas "0/1")).length),
       ("g 0/0", ((allSampleCells df).filter (gtHas "0/0")).length)] ∧
    (∀ pat cell, gtHas pat cell = isSubstr pat.toList (firstFieldChars cell.toList)) := by
  constructor
  · simp [calc_zygosity, sampleCells, countPat_eq_length]
  · intro pat cell; rfl

/-- C3 (counterexample): with threshold `0` — supplied and non-negative — the
claim requires keeping rows with DP > 0, but `not dp_threshold` is true for
`0.0` in Python, so the code substitutes the default 10 and drops the DP = 5
row. -/
theorem c3_counterexample :
    (0 : ℚ) ≤ 0 ∧ rowDP dp5Row = some 5 ∧ (5 : ℚ) > 0 ∧
    (filter_dp dp5Table (some 0)).rows = [] :=
  ⟨le_refl 0, rfl, by norm_num, rfl⟩

/-- C3 (amended): the Depth filter falls back to the default threshold 10 when
the threshold is absent, ZERO, or negative (Python falsiness plus the negative
check); only for a supplied strictly positive threshold `t` does it keep
exactly the rows whose extracted DP value is strictly greater than `t`. -/
theorem c3_default_substitution (df : Table) (t : ℚ) (ht : 0 < t) :
    filter_dp df none = filter_dp df (some 10) ∧
    (∀ u : ℚ, u ≤ 0 → filter_dp df (some u) = filter_dp df (some 10)) ∧
    (filter_dp df (some t)).rows = df.rows.filter (fun r => optGTmask t (rowDP r)) := by
  refine ⟨?_, ?_, ?_⟩
  · simp [filter_dp, dpKeep_eq, effDP]
  · intro u hu
    rcases eq_or_lt_of_le hu with h0 | hneg
    · simp [filter_dp, dpKeep_eq, effDP, h0]
    · have h1 : ¬ (u = 0) := by linarith
      simp [filter_dp, dpKeep_eq, effDP, h1, hneg]
  · have h1 : ¬ (t = 0) := by linarith
    have h2 : ¬ (t < 0) := by linarith
    simp [filter_dp, dpKeep_eq, effDP, h1, h2]

/-- Witness for C3 (amended) at the concrete one-row table with DP 5 and
threshold 3. -/
theorem c3_default_substitution_witness :
    (filter_dp dp5Table none = filter_dp dp5Table (some 10)) ∧
    (∀ u : ℚ, u ≤ 0 → filter_dp dp5Table (some u) = filter_dp dp5Table (some 10)) ∧
    (filter_dp dp5Table (some 3)).rows = dp5Table.rows.filter (fun r => optGTmask 3 (rowDP r)) :=
  c3_default_substitution dp5Table 3 (by norm_num)

/-- C8 (confirmed): `include_filter` is idempotent — the kept rows all have the
selected FILTER value, so a second application keeps all of them. -/
theorem c8_include_idempotent (df : Table) (v : String) :
    include_filter (include_filter df v) v = include_filter df v := by
  simp [include_filter, List.filter_filter]

/-- C10 (confirmed): `process_vcf_file` treats falsy optional parameters as
absent — an allele-frequency value of exactly 0 skips the AF filter just as no
value does, and an empty-string chromosome, position range, include-filter or
exclude-filter value skips the corresponding filter. -/
theorem c10_falsy_skip (df : Table) (depth af : Option ℚ) (ch pr iv ev : Option String) :
    process_vcf_file df depth (some 0) ch pr iv ev = process_vcf_file df depth none ch pr iv ev ∧
    process_vcf_file df depth af (some "") pr iv ev = process_vcf_file df depth af none pr iv ev ∧
    process_vcf_file df depth af ch (some "") iv ev = process_vcf_file df depth af ch none iv ev ∧
    process_vcf_file df depth af ch pr (some "") ev = process_vcf_file df depth af ch pr none ev ∧
    process_vcf_file df depth af ch pr iv (some "") = process_vcf_file df depth af ch pr iv none := by
  refine ⟨?_, ?_, ?_, ?_, ?_⟩ <;> simp [process_vcf_file]

/-- C2 (counterexample): on a table whose single row has CHROM `"chrX"` — no
match for `chr(\d+)` — the Chromosome filter does not merely exclude the row:
the `astype(int)` cast of the NaN extraction raises and the whole filter
aborts with an error. -/
theorem c2_counterexample :
    extractChr "chrX" = none ∧
    filter_chr chrXTable (PyVal.pstr "2") =
      .error "ValueError: Cannot convert non-finite values (NA or inf) to integer" :=
  ⟨rfl, rfl⟩

/-- C2 (amended): the Depth and AlleleFrequency filters are total per row — a
row whose INFO lacks the numeric pattern is merely excluded from the kept set
(and AF aborts only when a MATCHED token is not a float literal) — but the
Chromosome filter raises as soon as any row's CHROM fails to match `chr<int>`,
aborting the whole table. -/
theorem c2_per_row_totality (df : Table) (t : Option ℚ) (a : ℚ) (r : Row)
    (ha1 : 0 ≤ a) (ha2 : a ≤ 1) (hall : ∀ x ∈ df.rows, afOk x = true) :
    (rowDP r = none → r ∉ (filter_dp df t).rows) ∧
    filter_af df a = .ok { df with rows := df.rows.filter (fun x => optGTmask a (rowAFval x)) } ∧
    (extractAF r.info = none → r ∉ df.rows.filter (fun x => optGTmask a (rowAFval x))) ∧
    ((∃ x ∈ df.rows, extractChr x.chrom = none) → ∀ sel, ∃ e, filter_chr df sel = .error e) := by
  refine ⟨?_, ?_, ?_, ?_⟩
  · intro hdp hmem
    have h2 := (List.mem_filter.mp hmem).2
    rw [dpKeep_eq] at h2
    simp [optGTmask, hdp] at h2
  · unfold filter_af
    rw [if_pos ⟨ha1, ha2⟩, seriesAF_ok df.rows hall]
    show Except.ok { df with rows := keepByMask df.rows ((df.rows.map rowAFval).map (optGTmask a)) } = _
    rw [List.map_map, keepByMask_map]
    rfl
  · intro hx hmem
    have h2 := (List.mem_filter.mp hmem).2
    simp [rowAFval, hx, optGTmask] at h2
  · rintro ⟨x, hx, hnone⟩ sel
    obtain ⟨e, he⟩ := seriesChr_error df.rows x hx hnone
    exact ⟨e, by simp [filter_chr, he]⟩

/-- Witness for C2 (amended): the one-row `chrX` table, depth threshold 3 and
AF threshold 0. -/
theorem c2_per_row_totality_witness :
    (rowDP chrXRow = none → chrXRow ∉ (filter_dp chrXTable (some 3)).rows) ∧
    filter_af chrXTable 0 =
      .ok { chrXTable with rows := chrXTable.rows.filter (fun x => optGTmask 0 (rowAFval x)) } ∧
    (extractAF chrXRow.info = none →
      chrXRow ∉ chrXTable.rows.filter (fun x => optGTmask 0 (rowAFval x))) ∧
    ((∃ x ∈ chrXTable.rows, extractChr x.chrom = none) →
      ∀ sel, ∃ e, filter_chr chrXTable sel = .error e) :=
  c2_per_row_totality chrXTable (some 3) 0 chrXRow (by norm_num) (by norm_num) (by decide)

/-- C4 (confirmed): on a table whose CHROM values all match `chr<int>`, the
Chromosome filter called with a string parameter — what the CLI and pipeline
pass — returns an empty table, because the int-typed extracted column is never
elementwise equal to a string. -/
theorem c4_string_chromosome_empty (df : Table) (s : String)
    (h : ∀ r ∈ df.rows, (extractChr r.chrom).isSome = true) :
    filter_chr df (PyVal.pstr s) = .ok { df with rows := [] } := by
  unfold filter_chr
  rw [seriesChr_ok df.rows h]
  show Except.ok ({ df with rows := keepByMask df.rows ((df.rows.map chrVal).map (fun n => pyEqInt n (PyVal.pstr s))) }) = _
  have hfalse : (df.rows.map chrVal).map (fun n => pyEqInt n (PyVal.pstr s)) =
      (df.rows.map chrVal).map (fun _ => false) := by
    simp [pyEqInt]
  rw [hfalse, keepByMask_mapFalse]

/-- Witness for C4 at a two-row table with CHROM `chr1`, `chr2` and the string
parameter `"2"`. -/
theorem c4_string_chromosome_empty_witness :
    filter_chr chrTable (PyVal.pstr "2") = .ok { chrTable with rows := [] } :=
  c4_string_chromosome_empty chrTable "2" (by decide)

/-- C5 (confirmed): an allele-frequency threshold outside `[0, 1]` makes the
filter return its input unchanged; a threshold in `[0, 1]` keeps exactly the
rows whose extracted AF value is strictly greater than the threshold (rows
whose tokens all convert cleanly, per the hypothesis). -/
theorem c5_af_policy (df : Table) (t : ℚ) (hall : ∀ x ∈ df.rows, afOk x = true) :
    (¬ (0 ≤ t ∧ t ≤ 1) → filter_af df t = .ok df) ∧
    ((0 ≤ t ∧ t ≤ 1) → filter_af df t =
      .ok { df with rows := df.rows.filter (fun x => optGTmask t (rowAFval x)) }) := by
  constructor
  · intro hout
    unfold filter_af
    rw [if_neg hout]
  · intro hin
    unfold filter_af
    rw [if_pos hin, seriesAF_ok df.rows hall]
    show Except.ok { df with rows := keepByMask df.rows ((df.rows.map rowAFval).map (optGTmask t)) } = _
    rw [List.map_map, keepByMask_map]
    rfl

/-- Witness for C5: a two-row table (AF 1 and no AF), with the out-of-range
threshold 2 and the in-range threshold 0. -/
theorem c5_af_policy_witness :
    filter_af afTable 2 = .ok afTable ∧
    filter_af afTable 0 =
      .ok { afTable with rows := afTable.rows.filter (fun x => optGTmask 0 (rowAFval x)) } :=
  ⟨(c5_af_policy afTable 2 (by decide)).1 (by norm_num),
   (c5_af_policy afTable 0 (by decide)).2 (by norm_num)⟩

/-- C6 (confirmed): when the range string splits on `-` into exactly two
integer tokens `a`, `b`, the PositionRange filter keeps exactly the rows with
`a < POS < b` (both bounds strictly excluded); a non-integer token or a split
with other than two parts returns the input unchanged.  (POS values are
assumed integer-parsable, as the data model states; a failing POS parse is
also caught and likewise returns the input unchanged.) -/
theorem c6_position_policy (df : Table) (rng : String) (a b : Int)
    (hp : parseRangeTokens rng = some [a, b])
    (hpos : ∀ r ∈ df.rows, (pyInt r.pos).isSome = true) :
    (filter_position df rng).rows = df.rows.filter
      (fun r => match pyInt r.pos with
        | some p => decide (a < p ∧ p < b)
        | none => false) ∧
    (∀ rng2, parseRangeTokens rng2 = none → filter_position df rng2 = df) ∧
    (∀ rng2 l, parseRangeTokens rng2 = some l → l.length ≠ 2 → filter_position df rng2 = df) := by
  refine ⟨?_, ?_, ?_⟩
  · unfold filter_position
    rw [hp, seriesPos_ok df.rows hpos]
    show keepByMask df.rows ((df.rows.map posVal).map (fun p => decide (a < p ∧ p < b))) = _
    rw [List.map_map, keepByMask_map]
    refine List.filter_congr ?_
    intro x hx
    have hsome := hpos x hx
    cases hpx : pyInt x.pos with
    | none => rw [hpx] at hsome; simp at hsome
    | some p => simp [Function.comp, posVal, hpx]
  · intro rng2 h2
    unfold filter_position
    rw [h2]
  · intro rng2 l h2 hl
    unfold filter_position
    rw [h2]
    rcases l with _ | ⟨x, l⟩
    · rfl
    rcases l with _ | ⟨y, l⟩
    · rfl
    rcases l with _ | ⟨z, l⟩
    · exact absurd rfl hl
    · rfl

/-- Witness for C6 at POS values 100, 1000, 2500, 5000 with range
`"1000-5000"`, plus the spec's two no-op examples. -/
theorem c6_position_policy_witness :
    ((filter_position posTable "1000-5000").rows = posTable.rows.filter
      (fun r => match pyInt r.pos with
        | some p => decide ((1000 : Int) < p ∧ p < 5000)
        | none => false)) ∧
    filter_position posTable "abc-5000" = posTable ∧
    filter_position posTable "1-2-3" = posTable := by
  have h := c6_position_policy posTable "1000-5000" 1000 5000 (by decide) (by decide)
  exact ⟨h.1, h.2.1 "abc-5000" (by decide), h.2.2 "1-2-3" [1, 2, 3] (by decide) (by decide)⟩

/-- C7 (confirmed): whenever `calc_zygosity` returns a count map — and on the
no-sample path it always does — the map has exactly the four keys
`g 1/1, g 1/0, g 0/1, g 0/0` in that order, with ℕ-valued (hence non-negative)
counts, and an empty table yields all four counts 0 rather than a failure. -/
theorem c7_countmap_total (df : Table) (s : String) (out : List (String × Nat))
    (h : calc_zygosity df none = .ok out ∨ calc_zygosity df (some s) = .ok out) :
    out.map Prod.fst = ["g 1/1", "g 1/0", "g 0/1", "g 0/0"] ∧
    (df.rows = [] → out.map Prod.snd = [0, 0, 0, 0]) ∧
    calc_zygosity df none =
      .ok [("g 1/1", countPat (allSampleCells df) "1/1"),
           ("g 1/0", countPat (allSampleCells df) "1/0"),
           ("g 0/1", countPat (allSampleCells df) "0/1"),
           ("g 0/0", countPat (allSampleCells df) "0/0")] := by
  have key : ∃ cells, out =
      [("g 1/1", countPat cells "1/1"), ("g 1/0", countPat cells "1/0"),
       ("g 0/1", countPat cells "0/1"), ("g 0/0", countPat cells "0/0")] ∧
      (df.rows = [] → cells = []) := by
    rcases h with h1 | h2
    · have h1' : (Except.ok
          [("g 1/1", countPat (allSampleCells df) "1/1"),
           ("g 1/0", countPat (allSampleCells df) "1/0"),
           ("g 0/1", countPat (allSampleCells df) "0/1"),
           ("g 0/0", countPat (allSampleCells df) "0/0")] :
            Except String (List (String × Nat))) = .ok out := h1
      exact ⟨allSampleCells df, (Except.ok.inj h1').symm,
        fun hr => allSampleCells_nilRows df hr⟩
    · unfold calc_zygosity sampleCells at h2
      cases hidx : findColIdx s df.sampleCols with
      | none => simp [hidx] at h2
      | some i =>
        simp [hidx] at h2
        exact ⟨_, h2.symm, fun hr => by rw [hr]; rfl⟩
  obtain ⟨cells, hout, hc⟩ := key
  subst hout
  refine ⟨by simp, ?_, rfl⟩
  intro hr
  rw [hc hr]
  rfl

/-- Witness for C7 at the empty table with a sample column. -/
theorem c7_countmap_total_witness :
    ([(("g 1/1" : String), (0 : Nat)), ("g 1/0", 0), ("g 0/1", 0), ("g 0/0", 0)].map Prod.fst =
      ["g 1/1", "g 1/0", "g 0/1", "g 0/0"]) ∧
    (emptyTable.rows = [] →
      [(("g 1/1" : String), (0 : Nat)), ("g 1/0", 0), ("g 0/1", 0), ("g 0/0", 0)].map Prod.snd =
        [0, 0, 0, 0]) ∧
    calc_zygosity emptyTable none =
      .ok [("g 1/1", countPat (allSampleCells emptyTable) "1/1"),
           ("g 1/0", countPat (allSampleCells emptyTable) "1/0"),
           ("g 0/1", countPat (allSampleCells emptyTable) "0/1"),
           ("g 0/0", countPat (allSampleCells emptyTable) "0/0")] :=
  c7_countmap_total emptyTable "SAMPLE1"
    [("g 1/1", 0), ("g 1/0", 0), ("g 0/1", 0), ("g 0/0", 0)] (Or.inl rfl)

/-- C9 (confirmed): each of the six filters returns an order-preserving
selection — its output rows are a sublist (subsequence, same relative order,
no row modified or added) of the input rows, and the schema is unchanged.  The
embedding is purely functional, matching pandas boolean-mask selection, which
never mutates the input frame. -/
theorem c9_filters_order_preserving (df : Table) (t : Option ℚ) (a : ℚ) (sel : PyVal)
    (rng v w : String) (dfa dfc : Table)
    (ha : filter_af df a = .ok dfa) (hc : filter_chr df sel = .ok dfc) :
    ((filter_dp df t).rows.Sublist df.rows ∧ (filter_dp df t).sampleCols = df.sampleCols) ∧
    (dfa.rows.Sublist df.rows ∧ dfa.sampleCols = df.sampleCols) ∧
    (dfc.rows.Sublist df.rows ∧ dfc.sampleCols = df.sampleCols) ∧
    ((filter_position df rng).rows.Sublist df.rows ∧
      (filter_position df rng).sampleCols = df.sampleCols) ∧
    ((include_filter df v).rows.Sublist df.rows ∧
      (include_filter df v).sampleCols = df.sampleCols) ∧
    ((exclude_filter df w).rows.Sublist df.rows ∧
      (exclude_filter df w).sampleCols = df.sampleCols) := by
  refine ⟨⟨List.filter_sublist _, rfl⟩, ?_, ?_, ?_,
    ⟨List.filter_sublist _, rfl⟩, ⟨List.filter_sublist _, rfl⟩⟩
  · unfold filter_af at ha
    by_cases hin : 0 ≤ a ∧ a ≤ 1
    · rw [if_pos hin] at ha
      cases hs : seriesAF df.rows with
      | error e => rw [hs] at ha; simp at ha
      | ok vals =>
        rw [hs] at ha
        rw [← Except.ok.inj ha]
        exact ⟨keepByMask_sublist _ _, rfl⟩
    · rw [if_neg hin] at ha
      rw [← Except.ok.inj ha]
      exact ⟨List.Sublist.refl _, rfl⟩
  · unfold filter_chr at hc
    cases hs : seriesChr df.rows with
    | error e => rw [hs] at hc; simp at hc
    | ok vals =>
      rw [hs] at hc
      rw [← Except.ok.inj hc]
      exact ⟨keepByMask_sublist _ _, rfl⟩
  · unfold filter_position
    cases hp : parseRangeTokens rng with
    | none => exact ⟨List.Sublist.refl _, rfl⟩
    | some toks =>
      rcases toks with _ | ⟨x, toks⟩
      · exact ⟨List.Sublist.refl _, rfl⟩
      rcases toks with _ | ⟨y, toks⟩
      · exact ⟨List.Sublist.refl _, rfl⟩
      rcases toks with _ | ⟨z, toks⟩
      · cases hq : seriesPos df.rows with
        | none => exact ⟨List.Sublist.refl _, rfl⟩
        | some ps => exact ⟨keepByMask_sublist _ _, rfl⟩
      · exact ⟨List.Sublist.refl _, rfl⟩

/-- Witness for C9 at the empty table (both fallible filters succeed there),
with representative parameters for every filter. -/
theorem c9_filters_order_preserving_witness :
    ((filter_dp emptyTable none).rows.Sublist emptyTable.rows ∧
      (filter_dp emptyTable none).sampleCols = emptyTable.sampleCols) ∧
    (emptyTable.rows.Sublist emptyTable.rows ∧ emptyTable.sampleCols = emptyTable.sampleCols) ∧
    (emptyTable.rows.Sublist emptyTable.rows ∧ emptyTable.sampleCols = emptyTable.sampleCols) ∧
    ((filter_position emptyTable "1000-5000").rows.Sublist emptyTable.rows ∧
      (filter_position emptyTable "1000-5000").sampleCols = emptyTable.sampleCols) ∧
    ((include_filter emptyTable "PASS").rows.Sublist emptyTable.rows ∧
      (include_filter emptyTable "PASS").sampleCols = emptyTable.sampleCols) ∧
    ((exclude_filter emptyTable "LowQual").rows.Sublist emptyTable.rows ∧
      (exclude_filter emptyTable "LowQual").sampleCols = emptyTable.sampleCols) :=
  c9_filters_order_preserving emptyTable none 2 (PyVal.pstr "2") "1000-5000" "PASS" "LowQual"
    emptyTable emptyTable rfl rfl

end Zygosity
